import Mathlib

/-!
Verification development for the jiraiya ingestion pipeline
(`src/main.py`: `cache_jira` with its inner helpers `flatten_jira_text`,
`extract_text_from_description`, `extract_text_from_comments`,
`remap_issue`; `src/jira.py`: `get_all_issues_paginated`).

The Python values are embedded shallowly:

* A Jira rich-text node (a JSON dict) is `JNode`: the four keys the code
  reads are modelled as `Option` fields (`none` = key absent).  The
  `attrs` dict is modelled by the presence of the dict together with the
  presence of its `url` entry, hence `Option (Option String)`.
* Python exceptions (`KeyError`, a failed `raise_for_status`) are
  `Except Unit`.
* Network calls are parameters: a page server `Nat → Except Unit PageResp`
  indexed by the `startAt` offset, and a comment fetcher
  `String → Except Unit (List Comment)` indexed by the issue key.
* The unbounded `while` loops are given a fuel argument; the loop models
  also return the list of offsets they requested, so that statements
  about pagination order and retries can be made.
-/

/-- A Jira rich-text node, as the dict the Python code inspects:
`type?` models the `type` entry, `text?` the `text` entry, `attrs?` the
`attrs` entry (whose value in turn may or may not contain a `url`
entry), and `content?` the `content` entry (an ordered list of child
nodes). `none` everywhere means the key is absent. -/
inductive JNode : Type where
  | mk (type? : Option String) (text? : Option String)
      (attrs? : Option (Option String)) (content? : Option (List JNode)) : JNode

/-- Python truthiness of the description dict: the empty dict (no keys at
all) is falsy, every other dict is truthy. -/
def JNode.falsy : JNode → Bool
  | JNode.mk none none none none => true
  | _ => false

/-- Truthiness of `issue["fields"]["description"]` (line 90 of
`src/main.py`): `None` (JSON null) and the empty dict are falsy. -/
def descTruthy : Option JNode → Bool
  | none => false
  | some n => !n.falsy

/-- Python `url.split("/")[-1]`: the substring after the last `/`
(the whole string when no `/` occurs, the empty string after a trailing
`/`), computed by a left fold over the characters. -/
def lastPathSegment (s : String) : String :=
  s.data.foldl (fun acc c => if c = '/' then "" else acc.push c) ""

/-- The non-recursive head contribution of `flatten_jira_text`
(lines 32–38 of `src/main.py`): the `if "type" in text` block.  A
`text` node reads `text["text"]` (KeyError when absent), an
`inlineCard` node reads `text["attrs"]["url"]` (KeyError when either
key is absent) and keeps the final `/`-separated segment. -/
def flattenHead (type? text? : Option String) (attrs? : Option (Option String)) :
    Except Unit String :=
  match type? with
  | none => Except.ok ""
  | some ty =>
    if ty = "text" then
      match text? with
      | some s => Except.ok (s ++ " ")
      | none => Except.error ()
    else if ty = "listItem" then
      Except.ok "- "
    else if ty = "inlineCard" then
      match attrs? with
      | some (some url) => Except.ok (lastPathSegment url ++ " ")
      | some none => Except.error ()
      | none => Except.error ()
    else
      Except.ok ""

mutual

/-- `flatten_jira_text` (lines 29–44 of `src/main.py`).  After the head
contribution, when the node has a `content` entry the children are
flattened in order and concatenated, and then the code reads
`text["type"]` unconditionally to test for `"paragraph"` — a KeyError
when the node carries children but no type tag. -/
def flatten_jira_text : JNode → Except Unit String
  | JNode.mk type? text? attrs? content? =>
    match flattenHead type? text? attrs? with
    | Except.error e => Except.error e
    | Except.ok head =>
      match content? with
      | none => Except.ok head
      | some items =>
        match flattenContent items with
        | Except.error e => Except.error e
        | Except.ok body =>
          match type? with
          | none => Except.error ()
          | some ty =>
            if ty = "paragraph" then Except.ok (head ++ body ++ "\n")
            else Except.ok (head ++ body)

/-- The `for item in text["content"]` loop of `flatten_jira_text`:
children flattened left to right, first exception propagates. -/
def flattenContent : List JNode → Except Unit String
  | [] => Except.ok ""
  | item :: rest =>
    match flatten_jira_text item with
    | Except.error e => Except.error e
    | Except.ok a =>
      match flattenContent rest with
      | Except.error e => Except.error e
      | Except.ok b => Except.ok (a ++ b)

end

example : flatten_jira_text
    (JNode.mk (some "paragraph") none none
      (some [JNode.mk (some "text") (some "a") none none])) =
    Except.ok "a \n" := by rfl

example : flatten_jira_text
    (JNode.mk (some "listItem") none none
      (some [JNode.mk (some "text") (some "x") none none])) =
    Except.ok "- x " := by rfl

example : flatten_jira_text (JNode.mk none none none (some [])) =
    Except.error () := by rfl

example : flatten_jira_text (JNode.mk (some "text") none none none) =
    Except.error () := by rfl

example : flatten_jira_text
    (JNode.mk (some "inlineCard") none (some (some "https://x.example/browse/AL-7")) none) =
    Except.ok "AL-7 " := by rfl

/-! ## The record model (`remap_issue`, lines 64–111 of `src/main.py`) -/

/-- One entry of `issue["fields"]["issuelinks"]`: `outwardIssue` is
`some k` when the link has a truthy `outwardIssue` dict whose `key` is
`k`, and `none` when the link has no outward issue. -/
structure Link where
  outwardIssue : Option String
deriving DecidableEq

/-- The slice of `issue["fields"]` the code reads.  Fields accessed with
`.get(..., default)` are `Option`s (`none` = absent, defaulted at use
site); `assignee` is `some displayName` when the assignee entry is
truthy; `issuelinks` is the list from `.get("issuelinks", [])` (absence
and the empty list coincide); `description` is read by direct indexing
and is `none` for JSON null. -/
structure Fields where
  summary : Option String
  creator : Option String
  assignee : Option String
  status : Option String
  created : Option String
  updated : Option String
  issuelinks : List Link
  description : Option JNode

/-- A raw issue: `key` is `some k` when the `key` entry is present
(read with `.get("key", "")` at line 67 but by direct indexing at
line 85). -/
structure Issue where
  key : Option String
  fields : Fields

/-- A comment as the code reads it: `comment["author"]["displayName"]`
and `comment["body"]`. -/
structure Comment where
  author : String
  body : JNode

/-- The remapped record built by `remap_issue` (`mapped`); `text` is
filled in last, after the comment fetch. -/
structure Mapped where
  key : String
  summary : String
  creator : String
  assignee : String
  status : String
  created : String
  updated : String
  related_issues : String
  text : String
deriving DecidableEq

/-- Lines 66–83 of `src/main.py`: the pure part of `remap_issue` that
builds `mapped` before the comment fetch (with `text` still empty). -/
def buildMapped (issue : Issue) : Mapped :=
  { key := issue.key.getD ""
    summary := issue.fields.summary.getD ""
    creator := issue.fields.creator.getD ""
    assignee :=
      match issue.fields.assignee with
      | some d => d
      | none => "Unassigned"
    status := issue.fields.status.getD ""
    created := issue.fields.created.getD ""
    updated := issue.fields.updated.getD ""
    related_issues :=
      String.intercalate ", "
        (issue.fields.issuelinks.filterMap (fun l => l.outwardIssue))
    text := "" }

/-- `extract_text_from_description` (lines 46–50): a falsy description
(null or the empty dict) yields the empty string without calling the
flattener. -/
def extract_text_from_description (description : Option JNode) : Except Unit String :=
  match description with
  | none => Except.ok ""
  | some d => if d.falsy then Except.ok "" else flatten_jira_text d

/-- `extract_text_from_comments` (lines 52–62): one
`<author> said: <flattened body>\n` line per comment, in order; the
first flattening exception propagates. -/
def extract_text_from_comments : List Comment → Except Unit String
  | [] => Except.ok ""
  | c :: rest =>
    match flatten_jira_text c.body with
    | Except.error e => Except.error e
    | Except.ok t =>
      match extract_text_from_comments rest with
      | Except.error e => Except.error e
      | Except.ok restText =>
        Except.ok (c.author ++ " said: " ++ t ++ "\n" ++ restText)

/-- One piece of the `mapped["text"]` template string (lines 95–105):
either a literal chunk or a replacement field naming a format argument. -/
inductive TmplPart : Type where
  | lit (s : String) : TmplPart
  | arg (name : String) : TmplPart
deriving DecidableEq

/-- The triple-quoted template of lines 95–105, split into literal
chunks and its four replacement fields (summary, key, description,
comments), preserving the exact whitespace of the source. -/
def textTemplate : List TmplPart :=
  [ TmplPart.lit "\n        Summary: ", TmplPart.arg "summary",
    TmplPart.lit "\n        --\n        Key: ", TmplPart.arg "key",
    TmplPart.lit "\n        --\n        Description:\n        ",
    TmplPart.arg "description",
    TmplPart.lit "\n        \n        Comments:\n        ",
    TmplPart.arg "comments",
    TmplPart.lit "\n        " ]

/-- Python `str.format` on such a template: literal chunks pass
through, a replacement field looks up its keyword argument and raises
KeyError when the argument was not supplied. -/
def pyFormat (args : List (String × String)) : List TmplPart → Except Unit String
  | [] => Except.ok ""
  | TmplPart.lit s :: rest =>
    match pyFormat args rest with
    | Except.error e => Except.error e
    | Except.ok r => Except.ok (s ++ r)
  | TmplPart.arg name :: rest =>
    match args.lookup name with
    | none => Except.error ()
    | some v =>
      match pyFormat args rest with
      | Except.error e => Except.error e
      | Except.ok r => Except.ok (v ++ r)

/-- `remap_issue` (lines 64–111), with the comment request abstracted
as `fetch : key → comments-or-error`.  Steps in source order: build
`mapped`; read `issue["key"]` for the URL (KeyError when absent);
perform the single comment request (`raise_for_status` = the `fetch`
error propagates, there is no retry); return `None` when the
description is falsy and the comment list empty; flatten description
and comments; format the text template — whose argument list omits
`summary` although the template contains that field, exactly as the
`.format(...)` call at lines 105–109 does. -/
def remap_issue (fetch : String → Except Unit (List Comment)) (issue : Issue) :
    Except Unit (Option Mapped) :=
  let mapped := buildMapped issue
  match issue.key with
  | none => Except.error ()
  | some key =>
    match fetch key with
    | Except.error e => Except.error e
    | Except.ok comments =>
      if !descTruthy issue.fields.description && comments.isEmpty then
        Except.ok none
      else
        match extract_text_from_description issue.fields.description with
        | Except.error e => Except.error e
        | Except.ok descText =>
          match extract_text_from_comments comments with
          | Except.error e => Except.error e
          | Except.ok commentsText =>
            match pyFormat
                [("key", key), ("description", descText), ("comments", commentsText)]
                textTemplate with
            | Except.error e => Except.error e
            | Except.ok text => Except.ok (some { mapped with text := text })

/-- `list(executor.map(remap_issue, data["issues"]))` (line 129):
results in input order; the first exception raised by any task
propagates out of the iteration. -/
def mapRemap (fetch : String → Except Unit (List Comment)) :
    List Issue → Except Unit (List (Option Mapped))
  | [] => Except.ok []
  | i :: rest =>
    match remap_issue fetch i with
    | Except.error e => Except.error e
    | Except.ok r =>
      match mapRemap fetch rest with
      | Except.error e => Except.error e
      | Except.ok rs => Except.ok (r :: rs)

/-- Lines 126–131: the whole page is mapped and the falsy (`None`)
results are filtered out; an exception from any single record
propagates and aborts the page. -/
def processPage (fetch : String → Except Unit (List Comment)) (issues : List Issue) :
    Except Unit (List Mapped) :=
  match mapRemap fetch issues with
  | Except.error e => Except.error e
  | Except.ok rs => Except.ok (rs.filterMap id)

/-! ## The pagination loops -/

/-- The body of one `/rest/api/3/search` response as the code reads it:
the `issues` list and the server-reported `total`. -/
structure PageResp where
  issues : List Issue
  total : Nat

/-- How the `while next_issues` loop of `cache_jira` ends: `done`
carries the accumulated records when the loop exits normally (empty
page, or new offset past the reported total); `failed` records an
uncaught exception (page request failure or a record exception out of
the executor map); `outOfFuel` marks a run cut short by the fuel. -/
inductive LoopOutcome : Type where
  | done (records : List Mapped) : LoopOutcome
  | failed : LoopOutcome
  | outOfFuel : LoopOutcome
deriving DecidableEq

/-- The trace of a `cache_jira` run: the `startAt` offsets actually
requested, in order, and the loop's outcome. -/
structure CacheRun where
  offsets : List Nat
  outcome : LoopOutcome
deriving DecidableEq

/-- Lines 116–135 of `src/main.py`, with the page request abstracted as
`server : startAt → page-or-error` and fuel bounding the iteration
count.  Per iteration, in source order: one page request (a
`raise_for_status` failure aborts the run — no retry); break on an
empty `issues` list; re-read `total_issues` from this page; map
`remap_issue` over the page (an exception aborts the run); extend the
accumulator with the non-`None` results; advance `startAt` by the
number of records actually returned; continue while
`startAt <= total_issues`. -/
def cacheLoop (server : Nat → Except Unit PageResp)
    (fetch : String → Except Unit (List Comment)) :
    Nat → Nat → List Mapped → CacheRun
  | 0, _, _ => ⟨[], LoopOutcome.outOfFuel⟩
  | fuel + 1, startAt, acc =>
    match server startAt with
    | Except.error _ => ⟨[startAt], LoopOutcome.failed⟩
    | Except.ok data =>
      if data.issues.isEmpty then
        ⟨[startAt], LoopOutcome.done acc⟩
      else
        match processPage fetch data.issues with
        | Except.error _ => ⟨[startAt], LoopOutcome.failed⟩
        | Except.ok remapped =>
          if startAt + data.issues.length ≤ data.total then
            ⟨startAt ::
              (cacheLoop server fetch fuel (startAt + data.issues.length)
                (acc ++ remapped)).offsets,
             (cacheLoop server fetch fuel (startAt + data.issues.length)
                (acc ++ remapped)).outcome⟩
          else
            ⟨[startAt], LoopOutcome.done (acc ++ remapped)⟩

/-- `cache_jira` (up to the final file write): the loop starts at
`startAt = 0` with an empty accumulator. -/
def cache_jira (server : Nat → Except Unit PageResp)
    (fetch : String → Except Unit (List Comment)) (fuel : Nat) : CacheRun :=
  cacheLoop server fetch fuel 0 []

/-- The trace of a `get_all_issues_paginated` run: the records yielded,
the `start_at` offsets actually requested, and whether the generator
reached its `break` (rather than running out of fuel). -/
structure GenRun (α : Type) where
  yielded : List α
  offsets : List Nat
  finished : Bool
deriving DecidableEq

/-- The `while True` body of `get_all_issues_paginated` (lines 37–44 of
`src/jira.py`), with the page request abstracted as
`server : start_at → issues` (the code reads only `response["issues"]`
— the reported total is never consulted).  Per iteration: fetch;
increment `start_at` by `max_results` (the requested page size, not the
returned count); break — before yielding — when the page is empty or
when the limit is truthy and the incremented offset exceeds it;
otherwise yield the page and continue. -/
def genLoop {α : Type} (server : Nat → List α) (max_results limit : Nat) :
    Nat → Nat → GenRun α
  | 0, _ => ⟨[], [], false⟩
  | fuel + 1, start_at =>
    if (server start_at).isEmpty ∨ (limit ≠ 0 ∧ limit < start_at + max_results) then
      ⟨[], [start_at], true⟩
    else
      ⟨server start_at ++
        (genLoop server max_results limit fuel (start_at + max_results)).yielded,
       start_at :: (genLoop server max_results limit fuel (start_at + max_results)).offsets,
       (genLoop server max_results limit fuel (start_at + max_results)).finished⟩

/-- `get_all_issues_paginated` (lines 35–44 of `src/jira.py`):
`start_at` begins at 0; the Python signature defaults are
`max_results=100`, `limit=1000`; a falsy limit (`0` here, `0` or `None`
in Python) disables the limit check. -/
def get_all_issues_paginated {α : Type} (server : Nat → List α)
    (max_results limit fuel : Nat) : GenRun α :=
  genLoop server max_results limit fuel 0

/-! ## Basic string facts used when reading off the flattener's output -/

theorem str_empty_append (s : String) : "" ++ s = s := by
  cases s with
  | mk data => show String.append ⟨[]⟩ ⟨data⟩ = ⟨data⟩; simp [String.append]

theorem str_append_empty (s : String) : s ++ "" = s := by
  cases s with
  | mk data => show String.append ⟨data⟩ ⟨[]⟩ = ⟨data⟩; simp [String.append]

/-! ## Claims C6, C10, C5: the flattener -/

/-- C6 (confirmed): each node-type rule of `flatten_jira_text`, stated
on successful runs — a `text` node contributes its payload plus one
trailing space; a `listItem` node contributes a `- ` marker before its
children; an `inlineCard` node contributes the last path segment of its
attrs URL plus a trailing space; children are flattened in order and
concatenated; a `paragraph` node appends a newline after its children;
unknown types contribute no direct text but their children are
visited — together with the two concrete evaluations given by the
claim. -/
theorem claim_C6_flatten_rules :
    flatten_jira_text (JNode.mk (some "paragraph") none none
      (some [JNode.mk (some "text") (some "a") none none])) = Except.ok "a \n"
  ∧ flatten_jira_text (JNode.mk (some "listItem") none none
      (some [JNode.mk (some "text") (some "x") none none])) = Except.ok "- x "
  ∧ (∀ (s : String) (a? : Option (Option String)),
      flatten_jira_text (JNode.mk (some "text") (some s) a? none) =
        Except.ok (s ++ " "))
  ∧ (∀ (s : String) (a? : Option (Option String)) (kids : List JNode),
      flatten_jira_text (JNode.mk (some "text") (some s) a? (some kids)) =
        (flattenContent kids).map (fun body => s ++ " " ++ body))
  ∧ (∀ (t? : Option String) (a? : Option (Option String)),
      flatten_jira_text (JNode.mk (some "listItem") t? a? none) = Except.ok "- ")
  ∧ (∀ (t? : Option String) (a? : Option (Option String)) (kids : List JNode),
      flatten_jira_text (JNode.mk (some "listItem") t? a? (some kids)) =
        (flattenContent kids).map (fun body => "- " ++ body))
  ∧ (∀ (u : String) (t? : Option String),
      flatten_jira_text (JNode.mk (some "inlineCard") t? (some (some u)) none) =
        Except.ok (lastPathSegment u ++ " "))
  ∧ (∀ (t? : Option String) (a? : Option (Option String)) (kids : List JNode),
      flatten_jira_text (JNode.mk (some "paragraph") t? a? (some kids)) =
        (flattenContent kids).map (fun body => body ++ "\n"))
  ∧ (∀ (ty : String) (t? : Option String) (a? : Option (Option String))
        (kids : List JNode),
      ty ≠ "text" → ty ≠ "listItem" → ty ≠ "inlineCard" → ty ≠ "paragraph" →
      flatten_jira_text (JNode.mk (some ty) t? a? (some kids)) =
        flattenContent kids)
  ∧ (∀ (x : JNode) (xs : List JNode),
      flattenContent (x :: xs) =
        match flatten_jira_text x, flattenContent xs with
        | Except.ok a, Except.ok b => Except.ok (a ++ b)
        | Except.error e, _ => Except.error e
        | Except.ok _, Except.error e => Except.error e) := by
  refine ⟨by rfl, by rfl, fun s a? => by rfl, ?_, fun t? a? => by rfl, ?_,
    fun u t? => by rfl, ?_, ?_, ?_⟩
  · intro s a? kids
    cases h : flattenContent kids <;>
      simp [flatten_jira_text, flattenHead, h, Except.map]
  · intro t? a? kids
    cases h : flattenContent kids <;>
      simp [flatten_jira_text, flattenHead, h, Except.map]
  · intro t? a? kids
    cases h : flattenContent kids <;>
      simp [flatten_jira_text, flattenHead, h, Except.map, str_empty_append]
  · intro ty t? a? kids h1 h2 h3 h4
    cases h : flattenContent kids <;>
      simp [flatten_jira_text, flattenHead, h, h1, h2, h3, h4, str_empty_append]
  · intro x xs
    cases hx : flatten_jira_text x <;> cases hxs : flattenContent xs <;>
      simp [flattenContent, hx, hxs]

/-- C10 (confirmed): a node that carries a `content` entry but no
`type` entry makes `flatten_jira_text` fail — after visiting the
children, line 42 reads the type tag unconditionally. -/
theorem claim_C10_content_without_type_fails (t? : Option String)
    (a? : Option (Option String)) (kids : List JNode) :
    flatten_jira_text (JNode.mk none t? a? (some kids)) = Except.error () := by
  cases h : flattenContent kids <;>
    simp [flatten_jira_text, flattenHead, h]

mutual

/-- The well-formedness under which the flattener actually succeeds:
every node carries a type tag, every `text` node carries a payload, and
every `inlineCard` node carries an attrs dict containing a url.  (The
claim's weaker notion — type tag present, payload and attributes
optional — is not enough; see the counterexample.) -/
def wfNode : JNode → Bool
  | JNode.mk type? text? attrs? content? =>
    (match type? with
     | none => false
     | some ty =>
       ((ty != "text") || text?.isSome) &&
       ((ty != "inlineCard") ||
         (match attrs? with
          | some (some _) => true
          | _ => false)))
    && (match content? with
        | none => true
        | some items => wfList items)

/-- `wfNode` for every node of a list. -/
def wfList : List JNode → Bool
  | [] => true
  | x :: xs => wfNode x && wfList xs

end

theorem flattenHead_ok_of_wf (type? text? : Option String)
    (attrs? : Option (Option String)) (ty : String) (hty : type? = some ty)
    (htext : (ty != "text") || text?.isSome)
    (hcard : (ty != "inlineCard") ||
      (match attrs? with
       | some (some _) => true
       | _ => false)) :
    ∃ s, flattenHead type? text? attrs? = Except.ok s := by
  subst hty
  unfold flattenHead
  by_cases h1 : ty = "text"
  · subst h1
    simp at htext
    obtain ⟨s, hs⟩ := Option.isSome_iff_exists.mp htext
    exact ⟨s ++ " ", by simp [hs]⟩
  · by_cases h2 : ty = "listItem"
    · exact ⟨"- ", by simp [h1, h2]⟩
    · by_cases h3 : ty = "inlineCard"
      · subst h3
        simp at hcard
        match attrs?, hcard with
        | some (some u), _ => exact ⟨lastPathSegment u ++ " ", by simp [h1, h2]⟩
      · exact ⟨"", by simp [h1, h2, h3]⟩

mutual

theorem flatten_ok_of_wf (t : JNode) (h : wfNode t = true) :
    ∃ s, flatten_jira_text t = Except.ok s := by
  match t with
  | JNode.mk type? text? attrs? content? =>
    rw [wfNode.eq_def] at h
    simp only [Bool.and_eq_true] at h
    obtain ⟨hhead, hcontent⟩ := h
    match htype : type? with
    | none => simp at hhead
    | some ty =>
      simp only [Bool.and_eq_true] at hhead
      obtain ⟨s0, hs0⟩ :=
        flattenHead_ok_of_wf (some ty) text? attrs? ty rfl hhead.1 hhead.2
      match hcont : content? with
      | none =>
        exact ⟨s0, by rw [flatten_jira_text, hs0]⟩
      | some items =>
        simp only [] at hcontent
        obtain ⟨body, hbody⟩ := flattenContent_ok_of_wf items hcontent
        by_cases hp : ty = "paragraph"
        · subst hp
          exact ⟨s0 ++ body ++ "\n", by simp [flatten_jira_text, hs0, hbody]⟩
        · exact ⟨s0 ++ body, by simp [flatten_jira_text, hs0, hbody, hp]⟩

theorem flattenContent_ok_of_wf (l : List JNode) (h : wfList l = true) :
    ∃ s, flattenContent l = Except.ok s := by
  match l with
  | [] => exact ⟨"", rfl⟩
  | x :: xs =>
    rw [wfList.eq_def] at h
    simp only [Bool.and_eq_true] at h
    obtain ⟨a, ha⟩ := flatten_ok_of_wf x h.1
    obtain ⟨b, hb⟩ := flattenContent_ok_of_wf xs h.2
    exact ⟨a ++ b, by rw [flattenContent, ha, hb]⟩

end

/-- C5 (amended, corrected): `flatten_jira_text` is total (and, being a
Lean function, terminating) on every finite tree that is well-formed in
the strengthened sense of `wfNode`: every node carries a type tag,
every `text` node carries a payload and every `inlineCard` node carries
an attrs url.  The claim's own notion of well-formedness (payload and
attributes optional) is refuted by `claim_C5_counterexample`. -/
theorem claim_C5_flatten_total_on_wf (t : JNode) (h : wfNode t = true) :
    ∃ s, flatten_jira_text t = Except.ok s :=
  flatten_ok_of_wf t h

/-- Witness for C5 at a concrete well-formed tree. -/
theorem claim_C5_witness :
    wfNode (JNode.mk (some "paragraph") none none
      (some [JNode.mk (some "text") (some "a") none none,
             JNode.mk (some "inlineCard") none (some (some "https://h/x/AL-9")) none])) = true
    ∧ ∃ s, flatten_jira_text (JNode.mk (some "paragraph") none none
      (some [JNode.mk (some "text") (some "a") none none,
             JNode.mk (some "inlineCard") none (some (some "https://h/x/AL-9")) none])) =
        Except.ok s :=
  ⟨by rfl, claim_C5_flatten_total_on_wf _ (by rfl)⟩

/-- C5 counterexample: the tree consisting of the single node
`\x7btype: "text"\x7d` is well-formed in the claim's sense (it carries a
type tag; payload and attributes are optional), yet the flattener
fails on it with a KeyError reading the absent payload. -/
theorem claim_C5_counterexample :
    flatten_jira_text (JNode.mk (some "text") none none none) =
      Except.error () := by rfl

/-! ## Claim C8: related_issues -/

/-- The `related_issues` computation as the claim words it: the
identifiers of the outward-direction links (links without an outward
issue excluded), in source order, joined with commas. -/
def related_issues_spec (links : List Link) : String :=
  String.intercalate ", " (links.filterMap (fun l => l.outwardIssue))

/-- C8 (confirmed): for every issue, the `related_issues` field of the
record built at lines 66–83 is exactly the comma-joined identifiers of
its outward-direction links in source order; links without an outward
issue contribute nothing and outward links contribute their key in
place, as the two cons equations state; the joiner is the two-character
string `", "`. -/
theorem claim_C8_related_issues :
    (∀ issue : Issue,
      (buildMapped issue).related_issues = related_issues_spec issue.fields.issuelinks)
  ∧ (∀ rest : List Link,
      (Link.mk none :: rest).filterMap (fun l => l.outwardIssue) =
        rest.filterMap (fun l => l.outwardIssue))
  ∧ (∀ (k : String) (rest : List Link),
      (Link.mk (some k) :: rest).filterMap (fun l => l.outwardIssue) =
        k :: rest.filterMap (fun l => l.outwardIssue))
  ∧ related_issues_spec
      [Link.mk (some "AL-1"), Link.mk none, Link.mk (some "AL-2")] =
      "AL-1, AL-2" :=
  ⟨fun _ => rfl, fun _ => rfl, fun _ _ => rfl, by rfl⟩

/-! ## Concrete records and fetchers used in the record-level claims -/

/-- A field bag with every optional entry absent and no links: the
description is falsy and nothing else is read. -/
def emptyFields : Fields :=
  ⟨none, none, none, none, none, none, [], none⟩

/-- A rich-text description holding the single word `hello`. -/
def helloDesc : JNode :=
  JNode.mk (some "paragraph") none none
    (some [JNode.mk (some "text") (some "hello") none none])

/-- Issue `AL-1`: empty description, no links. -/
def issueEmptyAL1 : Issue := ⟨some "AL-1", emptyFields⟩

/-- Issue `AL-2`: empty description, no links (its comment fetch will
be made to fail in the counterexamples). -/
def issueEmptyAL2 : Issue := ⟨some "AL-2", emptyFields⟩

/-- Issue `AL-3`: carries the `hello` description. -/
def issueHello : Issue :=
  ⟨some "AL-3", { emptyFields with description := some helloDesc }⟩

/-- A comment fetcher that always succeeds with no comments. -/
def fetchNoComments : String → Except Unit (List Comment) := fun _ => Except.ok []

/-- A comment fetcher that fails (permanently) for `AL-2` and returns
no comments for every other key. -/
def fetchFailsAL2 : String → Except Unit (List Comment) := fun k =>
  if k = "AL-2" then Except.error () else Except.ok []

/-! ## Claim C7: the emptiness filter and the record emission -/

/-- C7 (code bug): the first conjunct shows the one filtering rule
works — an issue whose description is falsy and whose fetched comment
list is empty yields `None`, so nothing is emitted for it.  The second
conjunct evaluates the code at a record that the claim says must be
emitted — truthy description, successful comment fetch — and shows that
`remap_issue` instead raises: the `.format(...)` call at lines 105–109
omits the `summary` argument while the template of lines 95–105
contains that replacement field, so every record reaching the template
dies with a KeyError and no NormalizedRecord is ever produced. -/
theorem claim_C7_emptiness_filter_and_format_bug :
    remap_issue fetchNoComments issueEmptyAL1 = Except.ok none
  ∧ remap_issue fetchNoComments issueHello = Except.error () :=
  ⟨by rfl, by rfl⟩

/-! ## Claim C1: failure isolation -/

theorem mapRemap_error_of_mem (fetch : String → Except Unit (List Comment))
    (l : List Issue) (i : Issue) (hmem : i ∈ l)
    (hfail : remap_issue fetch i = Except.error ()) :
    mapRemap fetch l = Except.error () := by
  induction l with
  | nil => cases hmem
  | cons x xs ih =>
    rcases List.mem_cons.mp hmem with h | h
    · subst h
      simp [mapRemap, hfail]
    · cases hx : remap_issue fetch x with
      | error e => simp [mapRemap, hx]
      | ok r => simp [mapRemap, hx, ih h]

/-- C1 (amended, corrected): a single record's enrichment failure
aborts the whole page — the exception propagates out of
`executor.map`, `processPage` returns the error, and no record of the
page (not even a sibling whose own enrichment succeeds) reaches the
output.  The claim's isolation policy is refuted by
`claim_C1_counterexample`. -/
theorem claim_C1_single_failure_aborts_page
    (fetch : String → Except Unit (List Comment)) (page : List Issue)
    (h : ∃ i ∈ page, remap_issue fetch i = Except.error ()) :
    processPage fetch page = Except.error () := by
  obtain ⟨i, hmem, hfail⟩ := h
  simp [processPage, mapRemap_error_of_mem fetch page i hmem hfail]

/-- Witness for C1 at the concrete page `[AL-1, AL-2]` whose second
record's comment fetch fails. -/
theorem claim_C1_witness :
    processPage fetchFailsAL2 [issueEmptyAL1, issueEmptyAL2] = Except.error () :=
  claim_C1_single_failure_aborts_page fetchFailsAL2 [issueEmptyAL1, issueEmptyAL2]
    ⟨issueEmptyAL2, List.mem_cons_of_mem _ (List.mem_cons_self _ _), by rfl⟩

/-- C1 counterexample: on the page `[AL-1, AL-2]` where only `AL-2`'s
comment fetch fails permanently, the claim demands that the page
survive with `AL-2` dropped; the code instead aborts the whole page
(first conjunct), although the sibling `AL-1`'s own enrichment
succeeds on its own (second conjunct). -/
theorem claim_C1_counterexample :
    (processPage fetchFailsAL2 [issueEmptyAL1, issueEmptyAL2]).isOk = false
  ∧ remap_issue fetchFailsAL2 issueEmptyAL1 = Except.ok none :=
  ⟨by rfl, by rfl⟩

/-! ## Claim C4: retries -/

/-- An attempt-indexed page server, to speak about what a retry at the
same offset would have returned: `pageAttempts s n` is the outcome of
the `n`-th attempt at offset `s`.  The code performs exactly one
request per offset (`requests.get` then `raise_for_status`, lines
120–121), i.e. it consults attempt `0` only. -/
def attemptedPageServer (pageAttempts : Nat → Nat → Except Unit PageResp) :
    Nat → Except Unit PageResp := fun s => pageAttempts s 0

/-- Same device for the per-record comment request of lines 85–88:
attempt `0` only. -/
def attemptedCommentFetch (fetchAttempts : String → Nat → Except Unit (List Comment)) :
    String → Except Unit (List Comment) := fun k => fetchAttempts k 0

/-- C4 (amended, corrected): there is no retry anywhere.  The very
first failure of the page request aborts the run — exactly one offset
is ever requested and the outcome is `failed` — and the very first
failure of a record's comment request fails that record's enrichment
(which, by C1, aborts its page). -/
theorem claim_C4_no_retry :
    (∀ (pageAttempts : Nat → Nat → Except Unit PageResp)
        (fetch : String → Except Unit (List Comment)) (fuel : Nat),
      pageAttempts 0 0 = Except.error () →
      cache_jira (attemptedPageServer pageAttempts) fetch (fuel + 1) =
        ⟨[0], LoopOutcome.failed⟩)
  ∧ (∀ (fetchAttempts : String → Nat → Except Unit (List Comment))
        (issue : Issue) (k : String),
      issue.key = some k →
      fetchAttempts k 0 = Except.error () →
      remap_issue (attemptedCommentFetch fetchAttempts) issue =
        Except.error ()) := by
  constructor
  · intro pageAttempts fetch fuel h
    simp [cache_jira, cacheLoop, attemptedPageServer, h]
  · intro fetchAttempts issue k hk h
    simp [remap_issue, attemptedCommentFetch, hk, h]

/-- A concrete attempt-indexed page server: the first attempt at
offset 0 fails, every further attempt would have succeeded with a
one-record page. -/
def pageAttemptsEx : Nat → Nat → Except Unit PageResp := fun s n =>
  if s = 0 then
    (if n = 0 then Except.error () else Except.ok ⟨[issueEmptyAL1], 1⟩)
  else Except.ok ⟨[], 0⟩

/-- A concrete attempt-indexed comment fetcher: the first attempt fails
for every key, every further attempt would have succeeded. -/
def fetchAttemptsEx : String → Nat → Except Unit (List Comment) := fun _ n =>
  if n = 0 then Except.error () else Except.ok []

/-- C4 counterexample: with the transiently failing page server, the
second attempt would have succeeded (second conjunct) — the claimed
bounded retry would therefore have recovered — yet the run fails
fatally after the single request at offset 0 (first conjunct); likewise
a record's comment fetch whose second attempt would have succeeded
(fourth conjunct) fails the record at once (third conjunct). -/
theorem claim_C4_counterexample :
    cache_jira (attemptedPageServer pageAttemptsEx) fetchNoComments 5 =
      ⟨[0], LoopOutcome.failed⟩
  ∧ pageAttemptsEx 0 1 = Except.ok ⟨[issueEmptyAL1], 1⟩
  ∧ remap_issue (attemptedCommentFetch fetchAttemptsEx) issueEmptyAL1 =
      Except.error ()
  ∧ fetchAttemptsEx "AL-1" 1 = Except.ok [] :=
  ⟨by rfl, by rfl, by rfl, by rfl⟩

/-- Witness for C4 at the concrete failing server and fetcher. -/
theorem claim_C4_witness :
    cache_jira (attemptedPageServer pageAttemptsEx) fetchNoComments 3 =
      ⟨[0], LoopOutcome.failed⟩
  ∧ remap_issue (attemptedCommentFetch fetchAttemptsEx) issueEmptyAL2 =
      Except.error () :=
  ⟨claim_C4_no_retry.1 pageAttemptsEx fetchNoComments 2 (by rfl),
   claim_C4_no_retry.2 fetchAttemptsEx issueEmptyAL2 "AL-2" (by rfl) (by rfl)⟩

/-! ## Loop invariants for `get_all_issues_paginated` -/

/-- The `break` condition of `get_all_issues_paginated` at a fetched
offset `o`: the page is empty, or the limit is truthy and the
post-increment offset exceeds it. -/
def genStops {α : Type} (server : Nat → List α) (max_results limit o : Nat) : Prop :=
  (server o).isEmpty = true ∨ (limit ≠ 0 ∧ limit < o + max_results)

instance {α : Type} (server : Nat → List α) (max_results limit o : Nat) :
    Decidable (genStops server max_results limit o) := by
  unfold genStops; infer_instance

theorem genLoop_offsets_head {α : Type} (server : Nat → List α)
    (max_results limit fuel s : Nat) :
    (genLoop server max_results limit (fuel + 1) s).offsets.head? = some s := by
  rw [genLoop]
  split <;> rfl

theorem genLoop_offsets_chain {α : Type} (server : Nat → List α)
    (max_results limit : Nat) :
    ∀ (fuel s : Nat),
      List.Chain' (fun a b => b = a + max_results)
        (genLoop server max_results limit fuel s).offsets := by
  intro fuel
  induction fuel with
  | zero => intro s; simp [genLoop]
  | succ n ih =>
    intro s
    rw [genLoop]
    split
    · simp
    · refine List.chain'_cons'.mpr ⟨?_, ih (s + max_results)⟩
      intro y hy
      cases n with
      | zero => simp [genLoop] at hy
      | succ m =>
        rw [genLoop_offsets_head] at hy
        exact (Option.mem_some_iff.mp hy).symm

theorem genLoop_finished_char {α : Type} (server : Nat → List α)
    (max_results limit : Nat) :
    ∀ (fuel s : Nat),
      (genLoop server max_results limit fuel s).finished = true →
      ∃ l o, (genLoop server max_results limit fuel s).offsets = l ++ [o] ∧
        genStops server max_results limit o ∧
        ∀ x ∈ l, ¬ genStops server max_results limit x := by
  intro fuel
  induction fuel with
  | zero => intro s h; simp [genLoop] at h
  | succ n ih =>
    intro s h
    rw [genLoop] at h ⊢
    by_cases hc : (server s).isEmpty = true ∨ (limit ≠ 0 ∧ limit < s + max_results)
    · rw [if_pos hc]
      exact ⟨[], s, rfl, hc, by simp⟩
    · rw [if_neg hc] at h ⊢
      obtain ⟨l, o, h1, h2, h3⟩ := ih (s + max_results) h
      refine ⟨s :: l, o, by simp [h1], h2, ?_⟩
      intro x hx
      rcases List.mem_cons.mp hx with rfl | hx
      · exact hc
      · exact h3 x hx

theorem genLoop_yielded_char {α : Type} (server : Nat → List α)
    (max_results limit : Nat) :
    ∀ (fuel s : Nat),
      (genLoop server max_results limit fuel s).yielded =
        (if (genLoop server max_results limit fuel s).finished = true
         then (genLoop server max_results limit fuel s).offsets.dropLast
         else (genLoop server max_results limit fuel s).offsets).flatMap server := by
  intro fuel
  induction fuel with
  | zero => intro s; simp [genLoop]
  | succ n ih =>
    intro s
    rw [genLoop]
    split
    · simp
    · cases hf : (genLoop server max_results limit n (s + max_results)).finished with
      | true =>
        obtain ⟨l, o, h1, -, -⟩ :=
          genLoop_finished_char server max_results limit n (s + max_results) hf
        have := ih (s + max_results)
        rw [hf, if_pos rfl, h1, List.dropLast_concat] at this
        simp only [hf, if_pos rfl]
        rw [h1]
        show server s ++ _ = ((s :: l) ++ [o]).dropLast.flatMap server
        rw [List.dropLast_concat, this, List.flatMap_cons]
      | false =>
        have := ih (s + max_results)
        rw [hf, if_neg (by simp)] at this
        simp only [hf]
        rw [if_neg (by simp), this, List.flatMap_cons]

theorem genLoop_bounded {α : Type} (server : Nat → List α) :
    ∀ (fuel s max_results limit : Nat), limit ≠ 0 → 0 < max_results →
      limit + max_results ≤ s + max_results * fuel →
      (genLoop server max_results limit (fuel + 1) s).finished = true := by
  intro fuel
  induction fuel with
  | zero =>
    intro s mr limit hl hmr hle
    rw [genLoop]
    have hc : (server s).isEmpty = true ∨ (limit ≠ 0 ∧ limit < s + mr) :=
      Or.inr ⟨hl, by omega⟩
    rw [if_pos hc]
  | succ n ih =>
    intro s mr limit hl hmr hle
    rw [genLoop]
    by_cases hc : (server s).isEmpty = true ∨ (limit ≠ 0 ∧ limit < s + mr)
    · rw [if_pos hc]
    · rw [if_neg hc]
      exact ih (s + mr) mr limit hl hmr (by rw [Nat.mul_succ] at hle; omega)

/-! ## Loop invariants for `cache_jira` -/

/-- The relation between one fetched offset of `cache_jira` and the
next: the page at `a` came back, was non-empty, and the next offset is
`a` plus the number of records actually returned. -/
def cacheStep (server : Nat → Except Unit PageResp) (a b : Nat) : Prop :=
  ∃ resp, server a = Except.ok resp ∧ resp.issues.isEmpty = false ∧
    b = a + resp.issues.length

/-- A normal stop of `cache_jira` at offset `o`: the page came back and
either it was empty, or the advanced offset passed the total this very
page reported. -/
def cacheStops (server : Nat → Except Unit PageResp) (o : Nat) : Prop :=
  ∃ resp, server o = Except.ok resp ∧
    (resp.issues.isEmpty = true ∨ resp.total < o + resp.issues.length)

/-- A continuing iteration of `cache_jira` at offset `x`: non-empty
page, successfully processed, advanced offset still within the page's
reported total. -/
def cacheContinues (server : Nat → Except Unit PageResp)
    (fetch : String → Except Unit (List Comment)) (x : Nat) : Prop :=
  ∃ resp, server x = Except.ok resp ∧ resp.issues.isEmpty = false ∧
    (processPage fetch resp.issues).isOk = true ∧
    x + resp.issues.length ≤ resp.total

theorem cacheLoop_offsets_head (server : Nat → Except Unit PageResp)
    (fetch : String → Except Unit (List Comment)) (fuel s : Nat) (acc : List Mapped) :
    (cacheLoop server fetch (fuel + 1) s acc).offsets.head? = some s := by
  rw [cacheLoop]
  cases server s with
  | error e => rfl
  | ok data =>
    by_cases h : data.issues.isEmpty = true
    · simp [h]
    · simp only [Bool.not_eq_true] at h
      cases hp : processPage fetch data.issues with
      | error e => simp [h, hp]
      | ok remapped =>
        by_cases h2 : s + data.issues.length ≤ data.total
        · simp [h, hp, h2]
        · simp [h, hp, h2]

theorem cacheLoop_offsets_chain (server : Nat → Except Unit PageResp)
    (fetch : String → Except Unit (List Comment)) :
    ∀ (fuel s : Nat) (acc : List Mapped),
      List.Chain' (cacheStep server) (cacheLoop server fetch fuel s acc).offsets := by
  intro fuel
  induction fuel with
  | zero => intro s acc; simp [cacheLoop]
  | succ n ih =>
    intro s acc
    rw [cacheLoop]
    cases hs : server s with
    | error e => simp
    | ok data =>
      by_cases h : data.issues.isEmpty = true
      · simp [h]
      · simp only [Bool.not_eq_true] at h
        cases hp : processPage fetch data.issues with
        | error e => simp [h, hp]
        | ok remapped =>
          by_cases h2 : s + data.issues.length ≤ data.total
          · simp only [h, hp, h2, Bool.false_eq_true, if_false, if_true]
            refine List.chain'_cons'.mpr
              ⟨?_, ih (s + data.issues.length) (acc ++ remapped)⟩
            intro y hy
            cases n with
            | zero => simp [cacheLoop] at hy
            | succ m =>
              rw [cacheLoop_offsets_head] at hy
              exact (Option.mem_some_iff.mp hy) ▸ ⟨data, hs, h, rfl⟩
          · simp [h, hp, h2]

theorem cacheLoop_done_char (server : Nat → Except Unit PageResp)
    (fetch : String → Except Unit (List Comment)) :
    ∀ (fuel s : Nat) (acc res : List Mapped),
      (cacheLoop server fetch fuel s acc).outcome = LoopOutcome.done res →
      ∃ l o, (cacheLoop server fetch fuel s acc).offsets = l ++ [o] ∧
        cacheStops server o ∧ ∀ x ∈ l, cacheContinues server fetch x := by
  intro fuel
  induction fuel with
  | zero => intro s acc res h; simp [cacheLoop] at h
  | succ n ih =>
    intro s acc res h
    rw [cacheLoop] at h ⊢
    cases hs : server s with
    | error e => simp only [hs] at h; exact absurd h (by simp)
    | ok data =>
      simp only [hs] at h ⊢
      by_cases hemp : data.issues.isEmpty = true
      · simp only [hemp, if_true] at h ⊢
        exact ⟨[], s, rfl, ⟨data, hs, Or.inl hemp⟩, by simp⟩
      · simp only [hemp, if_false, Bool.false_eq_true] at h ⊢
        simp only [Bool.not_eq_true] at hemp
        cases hp : processPage fetch data.issues with
        | error e => simp only [hp] at h; exact absurd h (by simp)
        | ok remapped =>
          simp only [hp] at h ⊢
          by_cases h2 : s + data.issues.length ≤ data.total
          · simp only [h2, if_true] at h ⊢
            obtain ⟨l, o, h1, hstop, hcont⟩ :=
              ih (s + data.issues.length) (acc ++ remapped) res h
            refine ⟨s :: l, o, by simp [h1], hstop, ?_⟩
            intro x hx
            rcases List.mem_cons.mp hx with rfl | hx
            · exact ⟨data, hs, hemp, by rw [hp]; rfl, h2⟩
            · exact hcont x hx
          · simp only [h2, if_false] at h ⊢
            exact ⟨[], s, rfl, ⟨data, hs, Or.inr (by omega)⟩, by simp⟩

/-! ## Claims C2, C3, C9: the pagination loops -/

/-- C2 (amended, corrected): both loops start their offset at 0.
`cache_jira`'s loop advances each offset by the number of records the
page at that offset actually returned (`cacheStep`, line 133 of
`src/main.py`).  `get_all_issues_paginated`, however, advances each
offset by the requested page size `max_results` (line 41 of
`src/jira.py`), not by the returned count — refuted for it by
`claim_C2_counterexample`. -/
theorem claim_C2_offset_start_and_increment :
    (∀ (server : Nat → Except Unit PageResp)
        (fetch : String → Except Unit (List Comment)) (fuel : Nat),
      (cache_jira server fetch (fuel + 1)).offsets.head? = some 0)
  ∧ (∀ (server : Nat → Except Unit PageResp)
        (fetch : String → Except Unit (List Comment)) (fuel s : Nat)
        (acc : List Mapped),
      List.Chain' (cacheStep server) (cacheLoop server fetch fuel s acc).offsets)
  ∧ (∀ {α : Type} (server : Nat → List α) (max_results limit fuel : Nat),
      (get_all_issues_paginated server max_results limit (fuel + 1)).offsets.head? =
        some 0)
  ∧ (∀ {α : Type} (server : Nat → List α) (max_results limit fuel s : Nat),
      List.Chain' (fun a b => b = a + max_results)
        (genLoop server max_results limit fuel s).offsets) := by
  refine ⟨?_, ?_, ?_, ?_⟩
  · intro server fetch fuel
    exact cacheLoop_offsets_head server fetch fuel 0 []
  · intro server fetch fuel s acc
    exact cacheLoop_offsets_chain server fetch fuel s acc
  · intro α server mr limit fuel
    exact genLoop_offsets_head server mr limit fuel 0
  · intro α server mr limit fuel s
    exact genLoop_offsets_chain server mr limit fuel s

/-- A page server that returns three records at offset 0 and nothing
afterwards. -/
def serverThree : Nat → List Nat := fun s => if s = 0 then [10, 20, 30] else []

/-- C2 counterexample: with page size 5 and no limit, the generator's
second request goes to offset 5 — offset 0 plus the requested page
size — although the first page actually returned only 3 records, so the
claimed increment (0 + 3 = 3) does not match the loop. -/
theorem claim_C2_counterexample :
    (get_all_issues_paginated serverThree 5 0 10).offsets = [0, 5]
  ∧ (serverThree 0).length = 3
  ∧ (get_all_issues_paginated serverThree 5 0 10).offsets ≠
      [0, 0 + (serverThree 0).length] :=
  ⟨by rfl, by rfl, by decide⟩

/-- C3 (amended, corrected): `get_all_issues_paginated` stops exactly
at an offset satisfying `genStops` (empty page, or truthy limit
exceeded by the incremented offset) with every earlier offset not
satisfying it, and its offsets strictly increase when the page size is
positive (no offset is re-fetched).  `cache_jira` also never re-fetches
an offset, but when it exits normally its final offset satisfies
`cacheStops` — empty page **or** advanced offset beyond the
server-reported total: the total is a hard stop there, refuted as
"hint only" by `claim_C3_counterexample` — while every earlier
iteration satisfied `cacheContinues` (which includes staying within the
reported total). -/
theorem claim_C3_termination_conditions :
    (∀ {α : Type} (server : Nat → List α) (max_results limit fuel s : Nat),
      (genLoop server max_results limit fuel s).finished = true →
      ∃ l o, (genLoop server max_results limit fuel s).offsets = l ++ [o] ∧
        genStops server max_results limit o ∧
        ∀ x ∈ l, ¬ genStops server max_results limit x)
  ∧ (∀ {α : Type} (server : Nat → List α) (max_results limit fuel s : Nat),
      0 < max_results →
      List.Chain' (· < ·) (genLoop server max_results limit fuel s).offsets)
  ∧ (∀ (server : Nat → Except Unit PageResp)
        (fetch : String → Except Unit (List Comment)) (fuel s : Nat)
        (acc res : List Mapped),
      (cacheLoop server fetch fuel s acc).outcome = LoopOutcome.done res →
      ∃ l o, (cacheLoop server fetch fuel s acc).offsets = l ++ [o] ∧
        cacheStops server o ∧ ∀ x ∈ l, cacheContinues server fetch x)
  ∧ (∀ (server : Nat → Except Unit PageResp)
        (fetch : String → Except Unit (List Comment)) (fuel s : Nat)
        (acc : List Mapped),
      List.Chain' (· < ·) (cacheLoop server fetch fuel s acc).offsets) := by
  refine ⟨?_, ?_, ?_, ?_⟩
  · intro α server mr limit fuel s
    exact genLoop_finished_char server mr limit fuel s
  · intro α server mr limit fuel s hmr
    exact List.Chain'.imp (fun a b h => by omega)
      (genLoop_offsets_chain server mr limit fuel s)
  · intro server fetch fuel s acc res
    exact cacheLoop_done_char server fetch fuel s acc res
  · intro server fetch fuel s acc
    refine List.Chain'.imp ?_ (cacheLoop_offsets_chain server fetch fuel s acc)
    rintro a b ⟨resp, -, hne, rfl⟩
    have hlen : 0 < resp.issues.length := by
      cases hi : resp.issues with
      | nil => rw [hi] at hne; simp at hne
      | cons x xs => simp [hi]
    omega

/-- A page server whose first page holds two records but reports a
total of 1, and whose page at offset 2 is non-empty. -/
def serverTotalStop : Nat → Except Unit PageResp := fun s =>
  if s = 0 then Except.ok ⟨[issueEmptyAL1, issueEmptyAL2], 1⟩
  else Except.ok ⟨[issueEmptyAL1], 99⟩

/-- C3 counterexample: `cache_jira` (which takes no caller limit at
all) terminates normally after requesting only offset 0, although that
page was non-empty and the page at the next offset 2 is non-empty too —
it stopped precisely because the advanced offset 2 exceeded the
server-reported total 1, i.e. the total is used as a hard stop. -/
theorem claim_C3_counterexample :
    cache_jira serverTotalStop fetchNoComments 10 = ⟨[0], LoopOutcome.done []⟩
  ∧ serverTotalStop 0 = Except.ok ⟨[issueEmptyAL1, issueEmptyAL2], 1⟩
  ∧ serverTotalStop 2 = Except.ok ⟨[issueEmptyAL1], 99⟩ :=
  ⟨by rfl, by rfl, by rfl⟩

/-- A page server with no records at any offset. -/
def serverEmptyNat : Nat → List Nat := fun _ => []

/-- Witness for C3 at concrete servers: the generator over an empty
source, its strict offsets, and the total-stopped `cache_jira` run. -/
theorem claim_C3_witness :
    (∃ l o, (genLoop serverEmptyNat 5 0 3 0).offsets = l ++ [o] ∧
      genStops serverEmptyNat 5 0 o ∧ ∀ x ∈ l, ¬ genStops serverEmptyNat 5 0 x)
  ∧ List.Chain' (· < ·) (genLoop serverEmptyNat 5 0 3 0).offsets
  ∧ (∃ l o, (cacheLoop serverTotalStop fetchNoComments 10 0 []).offsets = l ++ [o] ∧
      cacheStops serverTotalStop o ∧
      ∀ x ∈ l, cacheContinues serverTotalStop fetchNoComments x) :=
  ⟨claim_C3_termination_conditions.1 serverEmptyNat 5 0 3 0 (by rfl),
   claim_C3_termination_conditions.2.1 serverEmptyNat 5 0 3 0 (by decide),
   claim_C3_termination_conditions.2.2.1 serverTotalStop fetchNoComments 10 0 [] []
     (by rfl)⟩

/-- C9 (confirmed): (1) when the post-increment offset exceeds a truthy
limit, the generator breaks before yielding the page it just fetched,
even when that page is non-empty — the iteration requests offset `s`
and yields nothing; (2) in general, a finished run yields exactly the
pages of every requested offset except the last one, so the final
fetched page is always discarded; (3) with the Python signature
defaults `max_results=100, limit=1000`, every run finishes within a
fixed fuel regardless of the server, i.e. a call without an explicit
limit is bounded; (4) with a falsy limit (`0`), a finished run stopped
at an empty page, every earlier page being non-empty — the generator
runs until an empty page. -/
theorem claim_C9_limit_discards_final_page :
    (∀ {α : Type} (server : Nat → List α) (max_results limit fuel s : Nat),
      (server s).isEmpty = false → limit ≠ 0 → limit < s + max_results →
      genLoop server max_results limit (fuel + 1) s = ⟨[], [s], true⟩)
  ∧ (∀ {α : Type} (server : Nat → List α) (max_results limit fuel s : Nat),
      (genLoop server max_results limit fuel s).finished = true →
      (genLoop server max_results limit fuel s).yielded =
        (genLoop server max_results limit fuel s).offsets.dropLast.flatMap server)
  ∧ (∀ {α : Type} (server : Nat → List α),
      (get_all_issues_paginated server 100 1000 12).finished = true)
  ∧ (∀ {α : Type} (server : Nat → List α) (max_results fuel : Nat),
      (get_all_issues_paginated server max_results 0 fuel).finished = true →
      ∃ l o, (get_all_issues_paginated server max_results 0 fuel).offsets = l ++ [o] ∧
        (server o).isEmpty = true ∧ ∀ x ∈ l, (server x).isEmpty = false) := by
  refine ⟨?_, ?_, ?_, ?_⟩
  · intro α server mr limit fuel s hne hl hlt
    rw [genLoop]
    rw [if_pos (Or.inr ⟨hl, hlt⟩)]
  · intro α server mr limit fuel s h
    have hy := genLoop_yielded_char server mr limit fuel s
    rw [h, if_pos rfl] at hy
    exact hy
  · intro α server
    exact genLoop_bounded server 11 0 100 1000 (by decide) (by decide) (by decide)
  · intro α server mr fuel h
    obtain ⟨l, o, h1, h2, h3⟩ := genLoop_finished_char server mr 0 fuel 0 h
    refine ⟨l, o, h1, ?_, ?_⟩
    · rcases h2 with h2 | ⟨h0, -⟩
      · exact h2
      · exact absurd rfl h0
    · intro x hx
      cases hse : (server x).isEmpty with
      | false => rfl
      | true => exact absurd (Or.inl hse) (h3 x hx)

/-- Witness for C9: a non-empty page at offset 0 is fetched and then
discarded when the limit 3 is already exceeded by offset 0 + 5; the
bounded default run over a constant one-record server; and a falsy
limit run over the empty server stopping at its empty first page. -/
theorem claim_C9_witness :
    genLoop serverThree 5 3 1 0 = ⟨[], [0], true⟩
  ∧ (genLoop serverThree 5 0 10 0).yielded =
      (genLoop serverThree 5 0 10 0).offsets.dropLast.flatMap serverThree
  ∧ (get_all_issues_paginated (fun _ => ([7] : List Nat)) 100 1000 12).finished = true
  ∧ (∃ l o, (get_all_issues_paginated serverEmptyNat 5 0 3).offsets = l ++ [o] ∧
      (serverEmptyNat o).isEmpty = true ∧ ∀ x ∈ l, (serverEmptyNat x).isEmpty = false) :=
  ⟨claim_C9_limit_discards_final_page.1 serverThree 5 3 0 0 (by rfl) (by decide)
     (by decide),
   claim_C9_limit_discards_final_page.2.1 serverThree 5 0 10 0 (by rfl),
   claim_C9_limit_discards_final_page.2.2.1 (fun _ => ([7] : List Nat)),
   claim_C9_limit_discards_final_page.2.2.2 serverEmptyNat 5 3 (by rfl)⟩

/-- Witness for C6 at a concrete unknown node type: a `doc` node
contributes no direct text and its children are still visited. -/
theorem claim_C6_witness :
    flatten_jira_text (JNode.mk (some "doc") none none
      (some [JNode.mk (some "text") (some "a") none none])) =
      flattenContent [JNode.mk (some "text") (some "a") none none] :=
  claim_C6_flatten_rules.2.2.2.2.2.2.2.2.1 "doc" none none
    [JNode.mk (some "text") (some "a") none none]
    (by decide) (by decide) (by decide) (by decide)
